import Mathlib

/-!
Shallow embedding of the MPT inference library (`examples/mpt-library/mpt_impl.cpp`)
and proofs about it.

The embedding covers:
* the `Mpt::Mpt` constructor's parameter handling and rng seeding;
* the binary loader's header (magic + hyperparameter block) and the
  per-tensor-record validation of the weight stream (`mpt_model_load`);
* the forward pass `mpt_eval`: scratch-buffer sizing/reallocation policy,
  KV-cache view addressing, QKV clamping, and the logits output contract;
* the decode loop `Mpt::ProcessTokenizedMessage`: rolling recent-token
  window, prompt consumption, sampling, and the termination condition.

The ggml compute engine is an external collaborator: its reported values
(type sizes, block sizes, byte sizes, used memory) are inputs to the
embedded functions, and tensor math (matmul, softmax, ...) is abstracted
as opaque value streams.  Machine integers are modelled as `Nat`/`Int`
(the quantities involved stay far below any relevant 2^w bound on the
paths modelled), and the float fields compared against thresholds are
modelled as `ℚ`.
-/

/-! ### `Mpt::Mpt` — constructor (mpt_impl.cpp:872-941) -/

/-- The sampling-relevant configuration fields of `mpt_params`
(thread count, batch size, context, prediction cap, seed, policy). -/
structure MptParams where
  seed : Int
  nThreads : Int
  nBatch : Nat
  nCtx : Nat
  nPredict : Int
  topK : Int
  repeatLastN : Int
deriving DecidableEq

/-- The `Mpt::Mpt(mpt_params _params)` constructor body, as state passing.
`defaults` is the value of the member `params` as default-initialized
before the constructor body runs; `given` is the argument `_params`.
Returns the seed handed to `std::mt19937` together with the final member
`params`.  Statement order follows the source: `rng = std::mt19937(params.seed)`
runs at line 873, before `params = _params` at line 875; the negative-seed
`time(NULL)` fallback (879-881), the `n_predict` clamp (883-885), the
`top_k == 0` fixup (918-920) and the `repeat_last_n == -1` fixup (922-924)
all run afterwards. -/
def Mpt.construct (defaults given : MptParams) (timeNow : Int) (nVocab : Int) :
    Int × MptParams :=
  let rngSeed : Int := defaults.seed
  let p := given
  let p := if p.seed < 0 then { p with seed := timeNow } else p
  let p := if p.nPredict < 0 then { p with nPredict := 0 } else p
  let p := if p.topK = 0 then { p with topK := nVocab } else p
  let p := if p.repeatLastN = -1 then { p with repeatLastN := (p.nCtx : Int) } else p
  (rngSeed, p)

/-! ### `mpt_model_load` — file header (mpt_impl.cpp:49-98) -/

/-- `GGML_FILE_MAGIC` (0x67676d6c, "ggml"). -/
def GGML_FILE_MAGIC : Int := 0x67676d6c

/-- `GGML_QNT_VERSION_FACTOR` from ggml.h. -/
def GGML_QNT_VERSION_FACTOR : Int := 1000

/-- The `mpt_hparams` fields populated by the header read.  The two float
fields (`alibi_bias_max`, `clip_qkv`) are carried as opaque stream words
here; only their presence and order in the file matter for the header. -/
structure MptHparams where
  dModel : Int
  maxSeqLen : Int
  nHeads : Int
  nLayers : Int
  nVocab : Int
  alibiBiasMax : Int
  clipQkv : Int
  ftype : Int
  nCtx : Int
deriving DecidableEq

/-- One `fin.read` of a fixed-width header field, over a stream of words. -/
def readWord : List Int → Option (Int × List Int)
  | [] => none
  | x :: rest => some (x, rest)

/-- The hyperparameter block read of `mpt_model_load` (lines 66-98):
eight `fin.read` calls in source order (`d_model`, `max_seq_len`,
`n_heads`, `n_layers`, `n_vocab`, `alibi_bias_max`, `clip_qkv`, `ftype`),
then `n_ctx = min(max_seq_len, n_ctx)` (the member was set to the
configured context at line 899) and `ftype %= GGML_QNT_VERSION_FACTOR`. -/
def readHparams (cfgCtx : Int) (s : List Int) : Option (MptHparams × List Int) := do
  let (dModel, s) ← readWord s
  let (maxSeqLen, s) ← readWord s
  let (nHeads, s) ← readWord s
  let (nLayers, s) ← readWord s
  let (nVocab, s) ← readWord s
  let (alibiBiasMax, s) ← readWord s
  let (clipQkv, s) ← readWord s
  let (ftype, s) ← readWord s
  some ({ dModel := dModel, maxSeqLen := maxSeqLen, nHeads := nHeads,
          nLayers := nLayers, nVocab := nVocab, alibiBiasMax := alibiBiasMax,
          clipQkv := clipQkv, ftype := ftype % GGML_QNT_VERSION_FACTOR,
          nCtx := min maxSeqLen cfgCtx }, s)

/-- Magic verification (lines 49-63) followed by the hyperparameter block;
returns the parsed hyperparameters and the remaining stream (on which the
vocabulary block is read next). -/
def readHeader (cfgCtx : Int) (s : List Int) : Option (MptHparams × List Int) :=
  match s with
  | [] => none
  | magic :: rest =>
    if magic = GGML_FILE_MAGIC then readHparams cfgCtx rest else none

/-! ### `mpt_model_load` — tensor record streaming (mpt_impl.cpp:288-383) -/

/-- A tensor registered in `model.tensors` during allocation: its two
dimensions (`ne[0]`, `ne[1]`, with 1 for an absent second dimension, as
ggml stores them) and its ggml element-type code. -/
structure RegTensor where
  ne0 : Int
  ne1 : Int
  ttype : Int
deriving DecidableEq

/-- `ggml_nelements` for the 1-D/2-D tensors of this model. -/
def ggml_nelements_reg (t : RegTensor) : Int := t.ne0 * t.ne1

/-- `ggml_nbytes` as the collaborator computes it:
`nelements * type_size / block_size` in truncating integer arithmetic,
given the collaborator's `ggml_type_size` and `ggml_blck_size` tables. -/
def ggml_nbytes_model (ts blck : Int → Nat) (t : RegTensor) : Nat :=
  ((ggml_nelements_reg t).toNat * ts t.ttype) / blck t.ttype

/-- One tensor record of the weight stream:
`(n_dims, name_len, type_code, dims[n_dims], name, payload)`. -/
structure TensorRecord where
  nDims : Nat
  ne : List Int
  name : String
  rtype : Int
  payload : List Int
deriving DecidableEq

/-- `nelements` as accumulated by the record reader: `int32_t nelements = 1;`
then `nelements *= ne[i]` for each declared dimension. -/
def nelementsOfDims (ne : List Int) : Int := ne.foldl (fun a b => a * b) 1

/-- The failure cases of the record validation, in source order. -/
inductive LoadErr where
  | unknownTensor
  | wrongSize
  | wrongShape
  | wrongSizeEncoding
deriving DecidableEq

/-- `model.tensors.find(name)` over the registry built at allocation. -/
def findTensor (name : String) : List (String × RegTensor) → Option RegTensor
  | [] => none
  | (k, t) :: rest => if name = k then some t else findTensor name rest

/-- Validation and copy of one tensor record (mpt_impl.cpp:311-377):
registry lookup, element-count check against `ggml_nelements`, shape check
against the registered `ne[0]`/`ne[1]`, the byte-size check
`(nelements * bpe) / ggml_blck_size(tensor->type) != ggml_nbytes(tensor)`
with `bpe = ggml_type_size(ttype)` taken from the record's declared type
code, and finally `fin.read(tensor->data, ggml_nbytes(tensor))` — modelled
as taking the first `ggml_nbytes` payload bytes.  `ts` and `blck` are the
collaborator's `ggml_type_size` and `ggml_blck_size` tables. -/
def loadOneTensor (ts blck : Int → Nat) (reg : List (String × RegTensor))
    (r : TensorRecord) : Except LoadErr (RegTensor × List Int) :=
  match findTensor r.name reg with
  | none => .error .unknownTensor
  | some t =>
    if ggml_nelements_reg t ≠ nelementsOfDims r.ne then
      .error .wrongSize
    else if t.ne0 ≠ r.ne.getD 0 1 ∨ t.ne1 ≠ r.ne.getD 1 1 then
      .error .wrongShape
    else if ((nelementsOfDims r.ne).toNat * ts r.rtype) / blck t.ttype
              ≠ ggml_nbytes_model ts blck t then
      .error .wrongSizeEncoding
    else
      .ok (t, r.payload.take (ggml_nbytes_model ts blck t))

/-- The size check as the spec's words state it, for comparison:
`ceil(element_count * element_size / block_size)`. -/
def specCeilDiv (a b : Nat) : Nat := (a + b - 1) / b

/-- The collaborator's `ggml_type_size` values for the type codes this
model uses (F32 = 0 → 4, F16 = 1 → 2, Q4_0 = 2 → 18, Q4_1 = 3 → 20). -/
def ggmlTypeSizeTable : Int → Nat := fun t =>
  if t = 0 then 4 else if t = 1 then 2 else if t = 2 then 18
  else if t = 3 then 20 else 0

/-- The collaborator's `ggml_blck_size` values for the same type codes
(quantized blocks hold 32 elements; float types have block size 1). -/
def ggmlBlckSizeTable : Int → Nat := fun t =>
  if t = 2 ∨ t = 3 then 32 else 1

/-- A registry holding the token-embedding tensor of a tiny model with
`d_model = 11`, `n_vocab = 3`, stored as Q4_0 (type code 2). -/
def wteRegistry : List (String × RegTensor) :=
  [("transformer.wte.weight", { ne0 := 11, ne1 := 3, ttype := 2 })]

/-- A stream record for that tensor: matching name, dims `[11, 3]`
(33 elements), declared type Q4_0, 32 payload bytes available. -/
def wteRecord : TensorRecord :=
  { nDims := 2, ne := [11, 3], name := "transformer.wte.weight",
    rtype := 2, payload := List.replicate 32 0 }

/-! ### `mpt_eval` — KV-cache views and scratch policy (mpt_impl.cpp:407-679) -/

/-- `ggml_view_1d`: a window into a flat tensor, given by a byte offset
into the backing data and a length in elements. -/
structure View1d where
  offsetBytes : Nat
  len : Nat
  elemSize : Nat
deriving DecidableEq

/-- The element index at which the view starts. -/
def View1d.offset (v : View1d) : Nat := v.offsetBytes / v.elemSize

/-- The view taken on `model.memory_k` / `model.memory_v` for the cache
write (lines 505-518): length `N * n_embd` elements at byte offset
`(ggml_element_size(memory) * n_embd) * (il * n_ctx + n_past)`. -/
def kvView (esz nEmbd il nCtx nPast N : Nat) : View1d :=
  { offsetBytes := (esz * nEmbd) * (il * nCtx + nPast),
    len := N * nEmbd, elemSize := esz }

/-- `ggml_cpy(src, view)`: overwrite the view's element range of `mem`
with `src`, leaving everything outside the range untouched. -/
def cpyIntoView (v : View1d) (src : Nat → Int) (mem : Nat → Int) : Nat → Int :=
  fun i => if v.offset ≤ i ∧ i < v.offset + v.len then src (i - v.offset) else mem i

/-- The state that persists across `mpt_eval` calls: the static scratch
capacity `buf_size`, the caller's running `mem_per_token` estimate, and
the two flat KV-cache tensors. -/
structure EvalState where
  bufSize : Nat
  memPerToken : Nat
  memK : Nat → Int
  memV : Nat → Int

/-- The body of `mpt_eval` after the scratch check succeeded: per layer,
copy the computed keys and values (abstracted as `srcK`/`srcV`, the
collaborator's tensor math) into the cache views at
`(il * n_ctx + n_past)`; produce the logits vector from the final
projection `out` (all `n_vocab * N` values when `logits_all`, else the
`n_vocab` values of position `N - 1`, lines 659-669); and set
`mem_per_token = ggml_used_mem(ctx0) / N` when it was zero on entry
(lines 671-673). -/
def mptEvalCore (nEmbd nLayer nCtx nVocab N nPast : Nat) (logitsAll : Bool)
    (used : Nat) (srcK srcV : Nat → Nat → Int) (out : Nat → Int)
    (st : EvalState) : Bool × EvalState × List Int :=
  let memK := (List.range nLayer).foldl
    (fun m il => cpyIntoView (kvView 2 nEmbd il nCtx nPast N) (srcK il) m) st.memK
  let memV := (List.range nLayer).foldl
    (fun m il => cpyIntoView (kvView 2 nEmbd il nCtx nPast N) (srcV il) m) st.memV
  let embdW :=
    if logitsAll then (List.range (nVocab * N)).map out
    else (List.range nVocab).map (fun j => out (nVocab * (N - 1) + j))
  let mpt := if st.memPerToken = 0 then used / N else st.memPerToken
  (true, { st with memK := memK, memV := memV, memPerToken := mpt }, embdW)

/-- One `mpt_eval` call (lines 421-679).  The entry check mirrors
`mem_per_token > 0 && mem_per_token * N > buf_size`; on overflow the
capacity becomes `1.1 * (mem_per_token * N)` (the `double` product stored
into a `size_t`, i.e. `11 * (mem_per_token * N) / 10` in truncating
integer arithmetic).  `reallocOk` is the collaborator's `realloc` outcome:
on failure the call returns `false` with the caller's logits vector
`embdW` untouched and no evaluation performed. -/
def mptEvalStep (nEmbd nLayer nCtx nVocab N nPast : Nat)
    (logitsAll reallocOk : Bool) (used : Nat)
    (srcK srcV : Nat → Nat → Int) (out : Nat → Int)
    (embdW : List Int) (st : EvalState) : Bool × EvalState × List Int :=
  if 0 < st.memPerToken ∧ st.bufSize < st.memPerToken * N then
    let newSize := 11 * (st.memPerToken * N) / 10
    if reallocOk then
      mptEvalCore nEmbd nLayer nCtx nVocab N nPast logitsAll used srcK srcV out
        { st with bufSize := newSize }
    else (false, { st with bufSize := newSize }, embdW)
  else
    mptEvalCore nEmbd nLayer nCtx nVocab N nPast logitsAll used srcK srcV out st

/-! ### `mpt_eval` — QKV clamp and views (mpt_impl.cpp:490-503) -/

/-- `ggml_clamp(x, lo, hi)` elementwise: `MIN(MAX(x, lo), hi)`. -/
def ggml_clamp_val (lo hi x : ℚ) : ℚ := min (max x lo) hi

/-- The fused QKV tensor after the optional clamp (lines 493-496): when
`clip_qkv > 0` every element is clamped to `[-clip_qkv, clip_qkv]`,
otherwise the tensor is left as produced by the projection. -/
def qkvClipped (clip : ℚ) (cur : Nat → ℚ) : Nat → ℚ :=
  if 0 < clip then fun i => ggml_clamp_val (-clip) clip (cur i) else cur

/-- The `Qcur` view (line 498): row `row`, element `i` of the fused tensor
whose rows have `3 * n_embd` elements, at byte offset 0. -/
def qView (nEmbd : Nat) (cur : Nat → ℚ) (row i : Nat) : ℚ :=
  cur (row * (3 * nEmbd) + i)

/-- The `Kcur` view (line 500): byte offset `1 * sizeof(float) * n_embd`
into each row. -/
def kView (nEmbd : Nat) (cur : Nat → ℚ) (row i : Nat) : ℚ :=
  cur (row * (3 * nEmbd) + nEmbd + i)

/-- The `Vcur` view (line 502): byte offset `2 * sizeof(float) * n_embd`
into each row. -/
def vView (nEmbd : Nat) (cur : Nat → ℚ) (row i : Nat) : ℚ :=
  cur (row * (3 * nEmbd) + 2 * nEmbd + i)

/-! ### `Mpt::ProcessTokenizedMessage` — decode loop (mpt_impl.cpp:973-1069) -/

/-- The loop's mutable state: the rolling window `last_n_tokens`, the
pending batch `embd`, the cache position `n_past`, the prompt cursor
`n_consumed`, the sampled-token count `n_sampled`, and the accumulated
output (token ids whose text is emitted). -/
structure LoopState where
  lastN : List Int
  embd : List Int
  nPast : Nat
  nConsumed : Nat
  nSampled : Nat
  result : List Int
deriving DecidableEq

/-- `last_n_tokens.erase(begin); last_n_tokens.push_back(t)`:
evict the oldest entry, append the new id. -/
def pushWindow (w : List Int) (t : Int) : List Int := w.drop 1 ++ [t]

/-- One pass of the inner prompt-consumption loop body (lines 1046-1051):
`embd.push_back(embd_inp[n_consumed])`, push the same id into the rolling
window, `++n_consumed`. -/
def consumeStep (inp : List Int) (s : LoopState) : LoopState :=
  { s with embd := s.embd ++ [inp.getD s.nConsumed 0],
           lastN := pushWindow s.lastN (inp.getD s.nConsumed 0),
           nConsumed := s.nConsumed + 1 }

/-- The inner prompt-consumption loop (lines 1045-1055): move prompt
tokens into the pending batch until the prompt is exhausted or the batch
reaches `n_batch`.  `fuel` bounds the recursion; `inp.length + 1` always
suffices. -/
def consumeLoop (inp : List Int) (nBatch : Nat) : Nat → LoopState → LoopState
  | 0, s => s
  | fuel + 1, s =>
    if s.nConsumed < inp.length then
      if nBatch ≤ (consumeStep inp s).embd.length then consumeStep inp s
      else consumeLoop inp nBatch fuel (consumeStep inp s)
    else s

/-- The predict step (lines 995-1012): if the pending batch is non-empty,
evaluate it — advancing `n_past` by the batch size and clearing the batch.
Evaluation itself is abstracted as succeeding here; its failure path
returns from the enclosing function and is modelled on `mptEvalStep`. -/
def predictStep (s : LoopState) : LoopState :=
  if s.embd.length > 0
  then { s with nPast := s.nPast + s.embd.length, embd := [] }
  else s

/-- The sampling branch (lines 1014-1041): obtain one id from the sampler
(`gpt_sample_top_k_top_p_repeat`, an external collaborator, abstracted as
a function `smp` of the loop state), push it into the rolling window and
the pending batch, and increment the sampled count. -/
def sampleStep (smp : LoopState → Int) (s : LoopState) : LoopState :=
  { s with lastN := pushWindow s.lastN (smp s),
           embd := s.embd ++ [smp s],
           nSampled := s.nSampled + 1 }

/-- The display step (lines 1058-1063): emit every id of the pending
batch (its text form goes to the observer; the ids accumulate in
`result`). -/
def emitStep (s : LoopState) : LoopState := { s with result := s.result ++ s.embd }

/-- One iteration of the decode loop body (lines 994-1063): predict,
then sample (when the prompt is fully consumed) or consume prompt
tokens, then emit. -/
def loopStep (p : MptParams) (inp : List Int) (smp : LoopState → Int)
    (s : LoopState) : LoopState :=
  emitStep (if inp.length ≤ (predictStep s).nConsumed
            then sampleStep smp (predictStep s)
            else consumeLoop inp p.nBatch (inp.length + 1) (predictStep s))

/-- The decode loop (lines 993-1069): `while (n_sampled < n_predict)` runs
the body, then `if (embd.back() == 0) break`.  Returns `some` final state
when the loop exits within `fuel` iterations, `none` otherwise. -/
def loopRun (p : MptParams) (inp : List Int) (smp : LoopState → Int) :
    Nat → LoopState → Option LoopState
  | 0, _ => none
  | fuel + 1, s =>
    if (s.nSampled : Int) < p.nPredict then
      if (loopStep p inp smp s).embd.getLast? = some 0 then some (loopStep p inp smp s)
      else loopRun p inp smp fuel (loopStep p inp smp s)
    else some s

/-- The state on entry to the loop (lines 978-992): the window is a vector
of `params.n_ctx` zeroes, everything else empty/zero. -/
def initLoopState (p : MptParams) : LoopState :=
  { lastN := List.replicate p.nCtx 0, embd := [], nPast := 0,
    nConsumed := 0, nSampled := 0, result := [] }

/-- Parameters for the concrete decode-loop runs: prediction cap 3,
batch size 8, context 4, repeat window 2. -/
def cexParams : MptParams :=
  { seed := 0, nThreads := 1, nBatch := 8, nCtx := 4, nPredict := 3,
    topK := 40, repeatLastN := 2 }

/-- A sampler that always returns token id 7 (never the end-of-sequence
id 0). -/
def constSampler : LoopState → Int := fun _ => 7

/-! ### Shared helper lemmas -/

/-- Pushing into a non-empty window preserves its length. -/
theorem pushWindow_length_pos (w : List Int) (t : Int) (h : 0 < w.length) :
    (pushWindow w t).length = w.length := by
  cases w with
  | nil => exact absurd h (by simp)
  | cons a l => simp [pushWindow]

/-- `consumeStep` leaves the window length unchanged (given a non-empty
window). -/
theorem consumeStep_lastN_length (inp : List Int) (s : LoopState)
    (h : 0 < s.lastN.length) :
    (consumeStep inp s).lastN.length = s.lastN.length := by
  simp only [consumeStep]
  exact pushWindow_length_pos _ _ h

/-- The inner consumption loop preserves the window length. -/
theorem consumeLoop_lastN_length (inp : List Int) (nB : Nat) :
    ∀ (fuel : Nat) (s : LoopState), 0 < s.lastN.length →
      (consumeLoop inp nB fuel s).lastN.length = s.lastN.length := by
  intro fuel
  induction fuel with
  | zero => intro s _; rfl
  | succ f ih =>
    intro s hs
    rw [consumeLoop]
    by_cases hlt : s.nConsumed < inp.length
    · rw [if_pos hlt]
      by_cases hb : nB ≤ (consumeStep inp s).embd.length
      · rw [if_pos hb]
        exact consumeStep_lastN_length inp s hs
      · rw [if_neg hb]
        rw [ih (consumeStep inp s) (by rw [consumeStep_lastN_length inp s hs]; exact hs)]
        exact consumeStep_lastN_length inp s hs
    · rw [if_neg hlt]

/-- The predict step never touches the window. -/
theorem predictStep_lastN (s : LoopState) : (predictStep s).lastN = s.lastN := by
  unfold predictStep
  split <;> rfl

/-- One full loop iteration preserves the window length. -/
theorem loopStep_lastN_length (p : MptParams) (inp : List Int)
    (smp : LoopState → Int) (s : LoopState) (h : 0 < s.lastN.length) :
    (loopStep p inp smp s).lastN.length = s.lastN.length := by
  unfold loopStep
  have hp : 0 < (predictStep s).lastN.length := by rw [predictStep_lastN]; exact h
  split
  · show (sampleStep smp (predictStep s)).lastN.length = s.lastN.length
    unfold sampleStep
    simp only []
    rw [pushWindow_length_pos _ _ hp, predictStep_lastN]
  · show (consumeLoop inp p.nBatch (inp.length + 1) (predictStep s)).lastN.length
        = s.lastN.length
    rw [consumeLoop_lastN_length inp p.nBatch (inp.length + 1) (predictStep s) hp,
        predictStep_lastN]

/-- Copying into a view hits exactly the view's element range: inside. -/
theorem cpyIntoView_inside (v : View1d) (src mem : Nat → Int) (j : Nat)
    (hj : j < v.len) :
    cpyIntoView v src mem (v.offset + j) = src j := by
  unfold cpyIntoView
  rw [if_pos ⟨Nat.le_add_right _ _, Nat.add_lt_add_left hj _⟩]
  congr 1
  omega

/-- Copying into a view hits exactly the view's element range: strictly
before the view, memory is untouched. -/
theorem cpyIntoView_before (v : View1d) (src mem : Nat → Int) (k : Nat)
    (hk : k < v.offset) :
    cpyIntoView v src mem k = mem k := by
  unfold cpyIntoView
  rw [if_neg]
  intro hcon
  exact absurd hcon.1 (Nat.not_le_of_lt hk)

/-- With a successful (or unneeded) reallocation, `mpt_eval` reports
success and its logits output is the core formula, independent of the
buffer state. -/
theorem mptEvalStep_reallocOk (nEmbd nLayer nCtx nVocab N nPast : Nat)
    (la : Bool) (used : Nat) (srcK srcV : Nat → Nat → Int) (out : Nat → Int)
    (ew : List Int) (st : EvalState) :
    (mptEvalStep nEmbd nLayer nCtx nVocab N nPast la true used srcK srcV out ew st).1
      = true
    ∧ (mptEvalStep nEmbd nLayer nCtx nVocab N nPast la true used srcK srcV out ew st).2.2
      = (if la then (List.range (nVocab * N)).map out
         else (List.range nVocab).map (fun j => out (nVocab * (N - 1) + j))) := by
  unfold mptEvalStep
  split
  · exact ⟨rfl, rfl⟩
  · exact ⟨rfl, rfl⟩

/-! ### C1 -/

/-- C1: the constructor seeds the sampler's pseudo-random generator before
`params = _params` runs, so the seed handed to `std::mt19937` is the
default member value, identical for any two supplied parameter sets: the
seed supplied in the constructor's parameters never reaches the
generator.  (This refutes the claim that the rng is seeded from the
supplied seed; seed-based reproducibility of sampling is therefore
vacuous — every run uses the same default-derived rng stream.) -/
theorem c1_rng_seed_ignores_supplied_params (defaults p q : MptParams)
    (t1 t2 v1 v2 : Int) :
    (Mpt.construct defaults p t1 v1).1 = (Mpt.construct defaults q t2 v2).1 := rfl

/-! ### C5 -/

/-- C5 counterexample: with the magic word followed by nine fixed-width
fields, the header read leaves the ninth unconsumed — the hyperparameter
block consists of eight fields, not nine; the vocabulary block would
start at the ninth word. -/
theorem c5_ninth_word_not_consumed :
    (readHeader 512 [GGML_FILE_MAGIC, 1, 2, 3, 4, 5, 6, 7, 8, 9]).map
        (fun pr => pr.2) = some [9]
    ∧ ([9] : List Int) ≠ [] := ⟨rfl, by decide⟩

/-- C5 (amended): after verifying the 4-byte magic, the loader reads a
hyperparameter block of exactly eight fixed-width fields in the fixed
order `d_model`, `max_seq_len`, `n_heads`, `n_layers`, `n_vocab`,
`alibi_bias_max`, `clip_qkv`, `ftype` (context length is derived as
`min(max_seq_len, configured)` and `ftype` is reduced modulo the
quantization version factor, not read); the vocabulary block is read from
the rest of the stream. -/
theorem c5_header_reads_eight_fields (cfg a b c d e f g ft : Int)
    (rest : List Int) :
    readHeader cfg (GGML_FILE_MAGIC :: a :: b :: c :: d :: e :: f :: g :: ft :: rest)
      = some ({ dModel := a, maxSeqLen := b, nHeads := c, nLayers := d,
                nVocab := e, alibiBiasMax := f, clipQkv := g,
                ftype := ft % GGML_QNT_VERSION_FACTOR,
                nCtx := min b cfg }, rest) := by
  rfl

/-! ### C2 -/

/-- C2 counterexample: a Q4_0 embedding tensor of 33 elements (d_model 11,
n_vocab 3) whose record passes the name, count and shape checks.  The
registered byte size is `33 * 18 / 32 = 18` (truncating), the check
`(nelements * bpe) / blck == nbytes` passes and the payload is copied —
yet `ceil(33 * 18 / 32) = 19 ≠ 18`, so the claimed ceiling check would
have rejected the record.  The loader's check is a floor, not a ceiling. -/
theorem c2_size_check_uses_floor_counterexample :
    loadOneTensor ggmlTypeSizeTable ggmlBlckSizeTable wteRegistry wteRecord
        = Except.ok ({ ne0 := 11, ne1 := 3, ttype := 2 }, List.replicate 18 (0 : Int))
    ∧ specCeilDiv (33 * 18) 32
        ≠ ggml_nbytes_model ggmlTypeSizeTable ggmlBlckSizeTable
            { ne0 := 11, ne1 := 3, ttype := 2 } := ⟨rfl, by decide⟩

/-- C2 (amended): for every tensor record whose name and dims pass the
registry and shape checks, the loader verifies that the truncating
(floor) integer quotient `element_count * element_size / block_size`
equals the registered tensor's byte size — element size taken from the
record's declared type code, block size and byte size from the registered
tensor — and returns failure exactly when this equality does not hold; on
success the payload bytes are copied into the tensor's backing storage. -/
theorem c2_size_check_floor (ts blck : Int → Nat)
    (reg : List (String × RegTensor)) (r : TensorRecord) (t : RegTensor)
    (hL : findTensor r.name reg = some t)
    (hC : ggml_nelements_reg t = nelementsOfDims r.ne)
    (h0 : t.ne0 = r.ne.getD 0 1) (h1 : t.ne1 = r.ne.getD 1 1) :
    loadOneTensor ts blck reg r =
      (if ((nelementsOfDims r.ne).toNat * ts r.rtype) / blck t.ttype
            ≠ ggml_nbytes_model ts blck t
       then Except.error LoadErr.wrongSizeEncoding
       else Except.ok (t, r.payload.take (ggml_nbytes_model ts blck t))) := by
  unfold loadOneTensor
  rw [hL]
  simp [hC, h0, h1]

/-- Witness for C2 (amended) at the concrete Q4_0 record. -/
theorem c2_size_check_floor_witness :
    (findTensor wteRecord.name wteRegistry
        = some { ne0 := 11, ne1 := 3, ttype := 2 }
     ∧ ggml_nelements_reg { ne0 := 11, ne1 := 3, ttype := 2 }
        = nelementsOfDims wteRecord.ne
     ∧ ({ ne0 := 11, ne1 := 3, ttype := 2 } : RegTensor).ne0 = wteRecord.ne.getD 0 1
     ∧ ({ ne0 := 11, ne1 := 3, ttype := 2 } : RegTensor).ne1 = wteRecord.ne.getD 1 1)
    ∧ loadOneTensor ggmlTypeSizeTable ggmlBlckSizeTable wteRegistry wteRecord =
        (if ((nelementsOfDims wteRecord.ne).toNat * ggmlTypeSizeTable wteRecord.rtype)
              / ggmlBlckSizeTable ({ ne0 := 11, ne1 := 3, ttype := 2 } : RegTensor).ttype
             ≠ ggml_nbytes_model ggmlTypeSizeTable ggmlBlckSizeTable
                 { ne0 := 11, ne1 := 3, ttype := 2 }
         then Except.error LoadErr.wrongSizeEncoding
         else Except.ok ({ ne0 := 11, ne1 := 3, ttype := 2 },
                wteRecord.payload.take
                  (ggml_nbytes_model ggmlTypeSizeTable ggmlBlckSizeTable
                    { ne0 := 11, ne1 := 3, ttype := 2 }))) :=
  ⟨⟨by decide, by decide, by decide, by decide⟩,
   c2_size_check_floor ggmlTypeSizeTable ggmlBlckSizeTable wteRegistry wteRecord
     { ne0 := 11, ne1 := 3, ttype := 2 }
     (by decide) (by decide) (by decide) (by decide)⟩

/-! ### C3 -/

/-- C3 counterexample: with prompt `[5, 0]` (the prompt's last token is
the end-of-sequence id 0), prediction limit 3, and a sampler that only
ever returns 7, the loop terminates in its first iteration with zero
tokens sampled: the `embd.back() == 0` break fires on a *consumed prompt
token*, before the prediction limit and without the sampler ever
producing id 0 — a prompt-consumption event terminates generation. -/
theorem c3_prompt_zero_terminates_counterexample :
    (loopRun cexParams [5, 0] constSampler 10 (initLoopState cexParams)).map
        (fun s => s.nSampled) = some 0
    ∧ ¬ (cexParams.nPredict ≤ ((0 : Nat) : Int)) := by
  constructor
  · rfl
  · decide

/-- C3 (amended): whenever the decode loop exits, either the sampled-token
count has reached the configured prediction limit, or the last token
appended to the pending batch in that iteration — whether produced by the
sampler or consumed from the prompt — equals the end-of-sequence id 0.
(The break inspects `embd.back()`, so a prompt token 0 also terminates
generation early.) -/
theorem c3_loop_exit_characterization (p : MptParams) (inp : List Int)
    (smp : LoopState → Int) (fuel : Nat) (s r : LoopState)
    (h : loopRun p inp smp fuel s = some r) :
    p.nPredict ≤ (r.nSampled : Int) ∨ r.embd.getLast? = some 0 := by
  induction fuel generalizing s with
  | zero => exact absurd h (by simp [loopRun])
  | succ f ih =>
    rw [loopRun] at h
    by_cases hc : ((s.nSampled : Int) < p.nPredict)
    · rw [if_pos hc] at h
      by_cases he : (loopStep p inp smp s).embd.getLast? = some 0
      · rw [if_pos he] at h
        injection h with h
        subst h
        exact Or.inr he
      · rw [if_neg he] at h
        exact ih _ h
    · rw [if_neg hc] at h
      injection h with h
      subst h
      exact Or.inl (le_of_not_lt hc)

/-- Witness for C3 (amended): the concrete terminated run above satisfies
the exit characterization. -/
theorem c3_loop_exit_characterization_witness :
    loopRun cexParams [5, 0] constSampler 10 (initLoopState cexParams)
        = some { lastN := [0, 0, 5, 0], embd := [5, 0], nPast := 0,
                 nConsumed := 2, nSampled := 0, result := [5, 0] }
    ∧ (cexParams.nPredict ≤ ((0 : Nat) : Int)
       ∨ ([5, 0] : List Int).getLast? = some 0) :=
  ⟨by decide,
   c3_loop_exit_characterization cexParams [5, 0] constSampler 10
     (initLoopState cexParams)
     { lastN := [0, 0, 5, 0], embd := [5, 0], nPast := 0,
       nConsumed := 2, nSampled := 0, result := [5, 0] }
     (by decide)⟩

/-! ### C4 -/

/-- C4 counterexample: with context length 4 and configured
`repeat_last_n = 2`, the rolling window is created with length
`params.n_ctx = 4`, not `repeat_last_n = 2`: the window's fixed length is
the context length, not the repeat window length. -/
theorem c4_window_sized_nctx_not_repeat_counterexample :
    (initLoopState cexParams).lastN.length = cexParams.nCtx
    ∧ ((initLoopState cexParams).lastN.length : Int) ≠ cexParams.repeatLastN := by
  constructor
  · rfl
  · decide

/-- C4 (amended): the rolling recent-token window has fixed length equal
to the configured *context length* `n_ctx` (not `repeat_last_n`), is
zero-filled initially, and every push evicts exactly the oldest entry
(FIFO: drop the head, append the new id), so its length is invariant
across every loop iteration. -/
theorem c4_window_fixed_length_nctx (p : MptParams) (inp : List Int)
    (smp : LoopState → Int) (s : LoopState) (t : Int)
    (h1 : 0 < p.nCtx) (h2 : s.lastN.length = p.nCtx) :
    (initLoopState p).lastN = List.replicate p.nCtx 0
    ∧ pushWindow s.lastN t = s.lastN.drop 1 ++ [t]
    ∧ (pushWindow s.lastN t).length = p.nCtx
    ∧ (loopStep p inp smp s).lastN.length = p.nCtx := by
  have hpos : 0 < s.lastN.length := by rw [h2]; exact h1
  refine ⟨rfl, rfl, ?_, ?_⟩
  · rw [pushWindow_length_pos _ _ hpos, h2]
  · rw [loopStep_lastN_length p inp smp s hpos, h2]

/-- Witness for C4 (amended) at the concrete parameters and initial
state. -/
theorem c4_window_fixed_length_nctx_witness :
    (0 < cexParams.nCtx ∧ (initLoopState cexParams).lastN.length = cexParams.nCtx)
    ∧ ((initLoopState cexParams).lastN = List.replicate cexParams.nCtx 0
       ∧ pushWindow (initLoopState cexParams).lastN 9
           = (initLoopState cexParams).lastN.drop 1 ++ [9]
       ∧ (pushWindow (initLoopState cexParams).lastN 9).length = cexParams.nCtx
       ∧ (loopStep cexParams [5, 0] constSampler (initLoopState cexParams)).lastN.length
           = cexParams.nCtx) :=
  ⟨⟨by decide, by decide⟩,
   c4_window_fixed_length_nctx cexParams [5, 0] constSampler
     (initLoopState cexParams) 9 (by decide) (by decide)⟩

/-! ### C6 -/

/-- C6: for every layer `il`, cache position `n_past` and batch size `N`
with `n_past + N ≤ n_ctx`, the cache-write view on the flat key/value
tensors starts at element offset `(il * n_ctx + n_past) * n_embd` and
spans exactly `N * n_embd` elements; copying through it writes the
batch's values inside that range (`offset + j ↦ src j`) and leaves
elements before the range untouched — the addressing function
`offset(layer, position) = (layer * context_length + position) *
embedding_width`. -/
theorem c6_kv_cache_addressing (esz nEmbd il nCtx nPast N j k : Nat)
    (mem src : Nat → Int)
    (h1 : 0 < esz) (h2 : nPast + N ≤ nCtx) (h3 : j < N * nEmbd)
    (h4 : k < (il * nCtx + nPast) * nEmbd) :
    (kvView esz nEmbd il nCtx nPast N).offset = (il * nCtx + nPast) * nEmbd
    ∧ (kvView esz nEmbd il nCtx nPast N).len = N * nEmbd
    ∧ cpyIntoView (kvView esz nEmbd il nCtx nPast N) src mem
        ((il * nCtx + nPast) * nEmbd + j) = src j
    ∧ cpyIntoView (kvView esz nEmbd il nCtx nPast N) src mem k = mem k := by
  have hoff : (kvView esz nEmbd il nCtx nPast N).offset
      = (il * nCtx + nPast) * nEmbd := by
    show (esz * nEmbd) * (il * nCtx + nPast) / esz = _
    rw [mul_assoc, Nat.mul_div_cancel_left _ h1, mul_comm]
  refine ⟨hoff, rfl, ?_, ?_⟩
  · rw [← hoff]
    exact cpyIntoView_inside _ src mem j h3
  · exact cpyIntoView_before _ src mem k (by rw [hoff]; exact h4)

/-- Witness for C6 at layer 1 of a cache with `n_ctx = 5`, `n_embd = 3`,
`n_past = 2`, `N = 3`, F16 element size 2. -/
theorem c6_kv_cache_addressing_witness :
    (0 < 2 ∧ 2 + 3 ≤ 5 ∧ 0 < 3 * 3 ∧ 0 < (1 * 5 + 2) * 3)
    ∧ ((kvView 2 3 1 5 2 3).offset = (1 * 5 + 2) * 3
       ∧ (kvView 2 3 1 5 2 3).len = 3 * 3
       ∧ cpyIntoView (kvView 2 3 1 5 2 3) (fun _ => (1 : Int)) (fun _ => (0 : Int))
           ((1 * 5 + 2) * 3 + 0) = (fun _ => (1 : Int)) 0
       ∧ cpyIntoView (kvView 2 3 1 5 2 3) (fun _ => (1 : Int)) (fun _ => (0 : Int)) 0
           = (fun _ => (0 : Int)) 0) :=
  ⟨⟨by decide, by decide, by decide, by decide⟩,
   c6_kv_cache_addressing 2 3 1 5 2 3 0 0 (fun _ => (0 : Int)) (fun _ => (1 : Int))
     (by decide) (by decide) (by decide) (by decide)⟩

/-! ### C7 -/

/-- C7: on a forward-pass call with batch size `N > 0` (and the
collaborator's reallocation succeeding), the scratch capacity after the
call is `1.1 * estimate * N` bytes (as the truncated integer the code
stores) exactly when the entry estimate is positive and `estimate * N`
exceeds the current capacity, and is unchanged otherwise; the
bytes-per-token estimate after the call is `bytes_actually_used / N`
exactly when the entry estimate was zero, and is unchanged otherwise. -/
theorem c7_scratch_policy (nEmbd nLayer nCtx nVocab N nPast used : Nat)
    (la : Bool) (srcK srcV : Nat → Nat → Int) (out : Nat → Int)
    (ew : List Int) (st : EvalState) (hN : 0 < N) :
    (mptEvalStep nEmbd nLayer nCtx nVocab N nPast la true used srcK srcV out
        ew st).2.1.bufSize
      = (if 0 < st.memPerToken ∧ st.bufSize < st.memPerToken * N
         then 11 * (st.memPerToken * N) / 10 else st.bufSize)
    ∧ (mptEvalStep nEmbd nLayer nCtx nVocab N nPast la true used srcK srcV out
        ew st).2.1.memPerToken
      = (if st.memPerToken = 0 then used / N else st.memPerToken) := by
  by_cases hc : 0 < st.memPerToken ∧ st.bufSize < st.memPerToken * N
  · have hz : ¬ st.memPerToken = 0 := Nat.pos_iff_ne_zero.mp hc.1
    unfold mptEvalStep mptEvalCore
    rw [if_pos hc]
    simp [hz]
    rw [if_pos hc]
  · unfold mptEvalStep mptEvalCore
    rw [if_neg hc]
    simp
    rw [if_neg hc]

/-- Witness for C7: entry estimate 3, capacity 5, batch 2 — the capacity
grows to `11 * 6 / 10 = 6` and the estimate stays 3. -/
theorem c7_scratch_policy_witness :
    0 < 2
    ∧ ((mptEvalStep 1 1 4 2 2 0 false true 10 (fun _ _ => 0) (fun _ _ => 0)
          (fun _ => 0) []
          { bufSize := 5, memPerToken := 3,
            memK := fun _ => 0, memV := fun _ => 0 }).2.1.bufSize
        = (if 0 < (3 : Nat) ∧ (5 : Nat) < 3 * 2 then 11 * (3 * 2) / 10 else 5)
       ∧ (mptEvalStep 1 1 4 2 2 0 false true 10 (fun _ _ => 0) (fun _ _ => 0)
          (fun _ => 0) []
          { bufSize := 5, memPerToken := 3,
            memK := fun _ => 0, memV := fun _ => 0 }).2.1.memPerToken
        = (if (3 : Nat) = 0 then 10 / 2 else 3)) :=
  ⟨by decide,
   c7_scratch_policy 1 1 4 2 2 0 10 false (fun _ _ => 0) (fun _ _ => 0)
     (fun _ => 0) []
     { bufSize := 5, memPerToken := 3, memK := fun _ => 0, memV := fun _ => 0 }
     (by decide)⟩

/-! ### C8 -/

/-- C8: when the scratch check triggers and the reallocation fails, the
forward-pass call returns failure without performing any evaluation: the
key and value caches, the bytes-per-token estimate and the caller's
logits vector are all returned exactly as they were on entry (the
caller's `n_past`/counters are untouched by `mpt_eval` and are only
advanced after a successful return, mpt_impl.cpp:1010). -/
theorem c8_realloc_failure_preserves_state (nEmbd nLayer nCtx nVocab N nPast
    used : Nat) (la : Bool) (srcK srcV : Nat → Nat → Int) (out : Nat → Int)
    (ew : List Int) (st : EvalState)
    (h1 : 0 < st.memPerToken) (h2 : st.bufSize < st.memPerToken * N) :
    (mptEvalStep nEmbd nLayer nCtx nVocab N nPast la false used srcK srcV out
        ew st).1 = false
    ∧ (mptEvalStep nEmbd nLayer nCtx nVocab N nPast la false used srcK srcV out
        ew st).2.1.memK = st.memK
    ∧ (mptEvalStep nEmbd nLayer nCtx nVocab N nPast la false used srcK srcV out
        ew st).2.1.memV = st.memV
    ∧ (mptEvalStep nEmbd nLayer nCtx nVocab N nPast la false used srcK srcV out
        ew st).2.1.memPerToken = st.memPerToken
    ∧ (mptEvalStep nEmbd nLayer nCtx nVocab N nPast la false used srcK srcV out
        ew st).2.2 = ew := by
  unfold mptEvalStep
  rw [if_pos ⟨h1, h2⟩]
  exact ⟨rfl, rfl, rfl, rfl, rfl⟩

/-- Witness for C8: estimate 3, capacity 5, batch 2, reallocation
failing. -/
theorem c8_realloc_failure_preserves_state_witness :
    (0 < (3 : Nat) ∧ (5 : Nat) < 3 * 2)
    ∧ ((mptEvalStep 1 1 4 2 2 0 false false 10 (fun _ _ => 0) (fun _ _ => 0)
          (fun _ => 0) [9]
          { bufSize := 5, memPerToken := 3,
            memK := fun _ => 0, memV := fun _ => 0 }).1 = false
       ∧ (mptEvalStep 1 1 4 2 2 0 false false 10 (fun _ _ => 0) (fun _ _ => 0)
          (fun _ => 0) [9]
          { bufSize := 5, memPerToken := 3,
            memK := fun _ => 0, memV := fun _ => 0 }).2.1.memK = (fun _ => 0)
       ∧ (mptEvalStep 1 1 4 2 2 0 false false 10 (fun _ _ => 0) (fun _ _ => 0)
          (fun _ => 0) [9]
          { bufSize := 5, memPerToken := 3,
            memK := fun _ => 0, memV := fun _ => 0 }).2.1.memV = (fun _ => 0)
       ∧ (mptEvalStep 1 1 4 2 2 0 false false 10 (fun _ _ => 0) (fun _ _ => 0)
          (fun _ => 0) [9]
          { bufSize := 5, memPerToken := 3,
            memK := fun _ => 0, memV := fun _ => 0 }).2.1.memPerToken = 3
       ∧ (mptEvalStep 1 1 4 2 2 0 false false 10 (fun _ _ => 0) (fun _ _ => 0)
          (fun _ => 0) [9]
          { bufSize := 5, memPerToken := 3,
            memK := fun _ => 0, memV := fun _ => 0 }).2.2 = [9]) :=
  ⟨⟨by decide, by decide⟩,
   c8_realloc_failure_preserves_state 1 1 4 2 2 0 10 false (fun _ _ => 0)
     (fun _ _ => 0) (fun _ => 0) [9]
     { bufSize := 5, memPerToken := 3, memK := fun _ => 0, memV := fun _ => 0 }
     (by decide) (by decide)⟩

/-! ### C9 -/

/-- C9: when `clip_qkv > 0`, every element of the fused QKV projection is
clamped into `[-clip_qkv, clip_qkv]`; when `clip_qkv ≤ 0` the projection
is passed through unmodified; and the Q, K, V views are taken of the
(possibly clamped) tensor at fixed row offsets `0`, `n_embd`,
`2 * n_embd`. -/
theorem c9_qkv_clamp (clip : ℚ) (cur : Nat → ℚ) (nEmbd row i : Nat) :
    (0 < clip → -clip ≤ qkvClipped clip cur i ∧ qkvClipped clip cur i ≤ clip)
    ∧ (clip ≤ 0 → qkvClipped clip cur = cur)
    ∧ qView nEmbd (qkvClipped clip cur) row i
        = qkvClipped clip cur (row * (3 * nEmbd) + i)
    ∧ kView nEmbd (qkvClipped clip cur) row i
        = qkvClipped clip cur (row * (3 * nEmbd) + nEmbd + i)
    ∧ vView nEmbd (qkvClipped clip cur) row i
        = qkvClipped clip cur (row * (3 * nEmbd) + 2 * nEmbd + i) := by
  refine ⟨?_, ?_, rfl, rfl, rfl⟩
  · intro hc
    unfold qkvClipped
    rw [if_pos hc]
    unfold ggml_clamp_val
    constructor
    · exact le_min (le_max_right _ _) (by linarith)
    · exact min_le_right _ _
  · intro hc
    unfold qkvClipped
    rw [if_neg (not_lt.mpr hc)]

/-- Witness for C9 at `clip_qkv = 1` on a constant projection. -/
theorem c9_qkv_clamp_witness :
    ((0 : ℚ) < 1 → -(1 : ℚ) ≤ qkvClipped 1 (fun _ => 5) 1
        ∧ qkvClipped 1 (fun _ => 5) 1 ≤ 1)
    ∧ ((1 : ℚ) ≤ 0 → qkvClipped 1 (fun _ => 5) = (fun _ => 5))
    ∧ qView 2 (qkvClipped 1 (fun _ => 5)) 0 1
        = qkvClipped 1 (fun _ => 5) (0 * (3 * 2) + 1)
    ∧ kView 2 (qkvClipped 1 (fun _ => 5)) 0 1
        = qkvClipped 1 (fun _ => 5) (0 * (3 * 2) + 2 + 1)
    ∧ vView 2 (qkvClipped 1 (fun _ => 5)) 0 1
        = qkvClipped 1 (fun _ => 5) (0 * (3 * 2) + 2 * 2 + 1) :=
  c9_qkv_clamp 1 (fun _ => 5) 2 0 1

/-! ### C10 -/

/-- C10: on a successful forward pass over a non-empty batch of `N`
tokens, the returned logits vector has exactly `n_vocab` entries holding
the final projection's values for position `N - 1` when `logits_all` is
false, and exactly `n_vocab * N` entries holding the values for all `N`
positions in order when `logits_all` is true. -/
theorem c10_logits_output (nEmbd nLayer nCtx nVocab N nPast used j k : Nat)
    (srcK srcV : Nat → Nat → Int) (out : Nat → Int) (ew : List Int)
    (st : EvalState) (hN : 0 < N) (hj : j < nVocab) (hk : k < nVocab * N) :
    (mptEvalStep nEmbd nLayer nCtx nVocab N nPast false true used srcK srcV out
        ew st).1 = true
    ∧ (mptEvalStep nEmbd nLayer nCtx nVocab N nPast false true used srcK srcV out
        ew st).2.2.length = nVocab
    ∧ (mptEvalStep nEmbd nLayer nCtx nVocab N nPast false true used srcK srcV out
        ew st).2.2.get? j = some (out (nVocab * (N - 1) + j))
    ∧ (mptEvalStep nEmbd nLayer nCtx nVocab N nPast true true used srcK srcV out
        ew st).1 = true
    ∧ (mptEvalStep nEmbd nLayer nCtx nVocab N nPast true true used srcK srcV out
        ew st).2.2.length = nVocab * N
    ∧ (mptEvalStep nEmbd nLayer nCtx nVocab N nPast true true used srcK srcV out
        ew st).2.2.get? k = some (out k) := by
  obtain ⟨hf1, hf2⟩ := mptEvalStep_reallocOk nEmbd nLayer nCtx nVocab N nPast
    false used srcK srcV out ew st
  obtain ⟨ht1, ht2⟩ := mptEvalStep_reallocOk nEmbd nLayer nCtx nVocab N nPast
    true used srcK srcV out ew st
  rw [if_neg (by simp)] at hf2
  rw [if_pos rfl] at ht2
  refine ⟨hf1, ?_, ?_, ht1, ?_, ?_⟩
  · rw [hf2]; simp
  · rw [hf2, List.get?_map, List.get?_range hj]; rfl
  · rw [ht2]; simp
  · rw [ht2, List.get?_map, List.get?_range hk]; rfl

/-- Witness for C10: `n_vocab = 2`, `N = 2`, the final projection being
the index itself. -/
theorem c10_logits_output_witness :
    (0 < 2 ∧ 1 < 2 ∧ 3 < 2 * 2)
    ∧ ((mptEvalStep 1 1 4 2 2 0 false true 10 (fun _ _ => 0) (fun _ _ => 0)
          (fun x => (x : Int)) []
          { bufSize := 5, memPerToken := 3,
            memK := fun _ => 0, memV := fun _ => 0 }).1 = true
       ∧ (mptEvalStep 1 1 4 2 2 0 false true 10 (fun _ _ => 0) (fun _ _ => 0)
          (fun x => (x : Int)) []
          { bufSize := 5, memPerToken := 3,
            memK := fun _ => 0, memV := fun _ => 0 }).2.2.length = 2
       ∧ (mptEvalStep 1 1 4 2 2 0 false true 10 (fun _ _ => 0) (fun _ _ => 0)
          (fun x => (x : Int)) []
          { bufSize := 5, memPerToken := 3,
            memK := fun _ => 0, memV := fun _ => 0 }).2.2.get? 1
          = some ((fun x => (x : Int)) (2 * (2 - 1) + 1))
       ∧ (mptEvalStep 1 1 4 2 2 0 true true 10 (fun _ _ => 0) (fun _ _ => 0)
          (fun x => (x : Int)) []
          { bufSize := 5, memPerToken := 3,
            memK := fun _ => 0, memV := fun _ => 0 }).1 = true
       ∧ (mptEvalStep 1 1 4 2 2 0 true true 10 (fun _ _ => 0) (fun _ _ => 0)
          (fun x => (x : Int)) []
          { bufSize := 5, memPerToken := 3,
            memK := fun _ => 0, memV := fun _ => 0 }).2.2.length = 2 * 2
       ∧ (mptEvalStep 1 1 4 2 2 0 true true 10 (fun _ _ => 0) (fun _ _ => 0)
          (fun x => (x : Int)) []
          { bufSize := 5, memPerToken := 3,
            memK := fun _ => 0, memV := fun _ => 0 }).2.2.get? 3
          = some ((fun x => (x : Int)) 3)) :=
  ⟨⟨by decide, by decide, by decide⟩,
   c10_logits_output 1 1 4 2 2 0 10 1 3 (fun _ _ => 0) (fun _ _ => 0)
     (fun x => (x : Int)) []
     { bufSize := 5, memPerToken := 3, memK := fun _ => 0, memV := fun _ => 0 }
     (by decide) (by decide) (by decide)⟩
